import Mathlib

/-!
Verification of the car-listing scraping pipeline in `ws.py`.

The program scrapes paginated HTML car listings, extracts raw string
fields per listing block (`extract_car_details`), normalizes numeric
fields and derives an age column (`clean_and_format_data`), walks pages
sequentially (`scrape_car_listings`), and persists rows (`save_to_csv`).

We shallowly embed the pipeline: the DOM is a rose tree with
BeautifulSoup-style descendant search, Python string operations are
modelled over `List Char`, the page fetch and the file sink are external
collaborators modelled as oracles, and the observable actions of the
walker and the saver (fetch attempts, sleeps, log calls, writes) are
recorded as explicit event traces.
-/

namespace WS

/-! ## Python string primitives -/

/-- ASCII whitespace stripped by Python `str.strip()`. -/
def isPySpace (c : Char) : Bool :=
  c == ' ' || c == '\t' || c == '\n' || c == '\r' || c == '\x0b' || c == '\x0c'

/-- Python `str.strip()`: drop whitespace from both ends. -/
def pyStrip (s : String) : String :=
  ⟨((s.data.dropWhile isPySpace).reverse.dropWhile isPySpace).reverse⟩

/-- One fuelled pass of Python `str.replace(pat, rep)` over a char list:
replace each non-overlapping occurrence of `pat`, scanning left to right.
The fuel is always instantiated with the list length, which bounds the
number of scanning steps since every step consumes at least one input
character (the program only ever calls this with a non-empty `pat`). -/
def replFuel (pat rep : List Char) : Nat → List Char → List Char
  | 0, l => l
  | _ + 1, [] => []
  | fuel + 1, c :: cs =>
    if !pat.isEmpty && pat.isPrefixOf (c :: cs) then
      rep ++ replFuel pat rep fuel ((c :: cs).drop pat.length)
    else
      c :: replFuel pat rep fuel cs

/-- Python `s.replace(pat, rep)` for non-empty `pat`. -/
def pyReplace (s pat rep : String) : String :=
  ⟨replFuel pat.data rep.data s.data.length s.data⟩

/-- Python `s.split(' ', 1)`: the part before the first space, and the
part after it when a space exists (`none` when `s` has no space). -/
def pySplitOnceSpace (s : String) : String × Option String :=
  match s.data.span (fun c => c != ' ') with
  | (before, []) => (⟨before⟩, none)
  | (before, _ :: after) => (⟨before⟩, some ⟨after⟩)

/-- Python `re.sub(r'[^\d]', '', s)`: keep only (ASCII) digit characters. -/
def subNonDigit (s : String) : String :=
  ⟨s.data.filter Char.isDigit⟩

/-- Python `int(s)` restricted to the inputs reachable in this program:
the argument is always a scrub result, hence a possibly-empty digit-only
string. `int` succeeds exactly on the non-empty ones (returning their
value) and raises `ValueError` on the empty string, modelled as `none`. -/
def pyInt? (s : String) : Option Nat :=
  if !s.data.isEmpty && s.data.all Char.isDigit then
    some (s.data.foldl (fun n c => 10 * n + (c.toNat - 48)) 0)
  else
    none

/-! ## DOM model (BeautifulSoup collaborator) -/

/-- A parsed HTML node: either a text fragment or an element with a tag
name, a list of CSS classes, and child nodes in document order. -/
inductive Node where
  | text (s : String) : Node
  | elem (tag : String) (classes : List String) (children : List Node) : Node

mutual

/-- BeautifulSoup `.text`: concatenation of all descendant text
fragments in document order. -/
def nodeText : Node → String
  | .text s => s
  | .elem _ _ cs => nodeTextList cs

/-- `.text` of a forest of siblings, concatenated left to right. -/
def nodeTextList : List Node → String
  | [] => ""
  | n :: ns => nodeText n ++ nodeTextList ns

end

/-- Does an element node match a BeautifulSoup query `(tag, class_)`?
Text nodes never match; a class constraint requires membership in the
node's class list (`none` means no class constraint). -/
def matchesQuery (tag : String) (cls : Option String) : Node → Bool
  | .text _ => false
  | .elem t cs _ =>
    t == tag && (match cls with
      | none => true
      | some c => cs.contains c)

mutual

/-- BeautifulSoup `node.find_all(tag, class_=cls)`: all strict
descendants matching the query, in document (pre-)order. The node
itself is not a candidate. -/
def findAll (tag : String) (cls : Option String) : Node → List Node
  | .text _ => []
  | .elem _ _ cs => findAllList tag cls cs

/-- `find_all` over a forest: every forest node and its descendants are
candidates, in document order. -/
def findAllList (tag : String) (cls : Option String) : List Node → List Node
  | [] => []
  | n :: ns =>
    (if matchesQuery tag cls n then [n] else []) ++
      findAll tag cls n ++ findAllList tag cls ns

end

/-- BeautifulSoup `node.find(tag, class_=cls)`: the first match of
`find_all`, or `none` when there is none. -/
def findFirst (tag : String) (cls : Option String) (n : Node) : Option Node :=
  (findAll tag cls n).head?

/-! ## Records -/

/-- A raw scraped record, as assembled by `extract_car_details`.
Field names follow the dictionary keys of the source. -/
structure RawCar where
  nomTotal : String
  marque : String
  modele : String
  carburant : String
  boite : String
  prix : String
  kilometrage : String
  annee : String
deriving DecidableEq

/-- A cleaned record, as assembled by `clean_and_format_data`, in the
output column order of the source dictionary. -/
structure CleanedCar where
  nomTotal : String
  marque : String
  modele : String
  annee : String
  age : String
  kilometrage : String
  carburant : String
  boite : String
  prix : String
deriving DecidableEq

/-! ## FieldExtractor: `extract_car_details` -/

/-- Embedding of `extract_car_details(car_div)` (ws.py lines 20-75).
Returns `none` for the source's `return None` SKIP signal: when no
`div.options` container exists, or when the first such container has
fewer than four descendant `div`s. The `try/except` wrapper of the
source catches traversal exceptions, which the total embedding cannot
raise, so no extra error case is modelled. -/
def extract_car_details (car_div : Node) : Option RawCar :=
  let car_name :=
    match findFirst "h3" (some "lib-car") car_div with
    | some n => pyStrip (nodeText n)
    | none => "N/A"
  let name_parts := pySplitOnceSpace car_name
  let brand := name_parts.1
  let model :=
    match name_parts.2 with
    | some rest => rest
    | none => "N/A"
  let price :=
    match findFirst "div" (some "price") car_div with
    | some e => pyReplace (pyReplace (pyStrip (nodeText e)) " " "") "DT" ""
    | none => "N/A"
  match findAll "div" (some "options") car_div with
  | [] => none
  | options0 :: _ =>
    match findAll "div" none options0 with
    | d0 :: d1 :: d2 :: d3 :: _ =>
      let year :=
        match findFirst "span" none d0 with
        | some s => pyStrip (nodeText s)
        | none => "N/A"
      let kilometers :=
        match findFirst "span" none d1 with
        | some s => pyReplace (pyReplace (pyStrip (nodeText s)) " Km" "") " " ""
        | none => "N/A"
      let fuel_type :=
        match findFirst "span" none d2 with
        | some s => pyStrip (nodeText s)
        | none => "N/A"
      let transmission :=
        match findFirst "span" none d3 with
        | some s => pyStrip (nodeText s)
        | none => "N/A"
      some
        { nomTotal := car_name
          marque := brand
          modele := model
          carburant := fuel_type
          boite := transmission
          prix := price
          kilometrage := kilometers
          annee := year }
    | _ => none

/-! ## RecordNormalizer: `clean_and_format_data` -/

/-- Embedding of the loop body of `clean_and_format_data` (ws.py lines
87-107) for one non-`None` record. `current_year` is the value of
`datetime.now().year` at normalization time, passed as a parameter. -/
def cleanCar (current_year : Int) (car : RawCar) : CleanedCar :=
  let year := if car.annee != "N/A" then subNonDigit car.annee else "N/A"
  let age :=
    if year != "N/A" then
      match pyInt? year with
      | some n => toString (current_year - (n : Int))
      | none => "N/A"
    else "N/A"
  { nomTotal := car.nomTotal
    marque := car.marque
    modele := car.modele
    annee := year
    age := age
    kilometrage :=
      if car.kilometrage != "N/A" then subNonDigit car.kilometrage else "N/A"
    carburant := car.carburant
    boite := car.boite
    prix := if car.prix != "N/A" then subNonDigit car.prix else "N/A" }

/-- Embedding of `clean_and_format_data(cars)` (ws.py lines 77-109):
skip `None` entries, clean the rest in order. -/
def clean_and_format_data (current_year : Int) :
    List (Option RawCar) → List CleanedCar
  | [] => []
  | none :: rest => clean_and_format_data current_year rest
  | some car :: rest =>
    cleanCar current_year car :: clean_and_format_data current_year rest

/-! ## PaginationWalker: `scrape_car_listings`

The transport plus HTML parsing (`requests.get`, `raise_for_status`,
`BeautifulSoup`) is an external collaborator, modelled as an oracle
from a page number to either the parsed page DOM or a
`requests.RequestException`. The observable actions of the loop body
are recorded as an event trace in source order. -/

/-- One observable action of the page loop of `scrape_car_listings`. -/
inductive Event where
  /-- `requests.get` issued for this page number. -/
  | fetchAttempt (page : Nat)
  /-- `logging.info(f"Scraped page {page}: {found} cars found")`. -/
  | pageLog (page : Nat) (found : Nat)
  /-- `time.sleep(1)`, the fixed pacing delay. -/
  | sleep
  /-- `logging.error(f"Error scraping page {page}: ...")` from the
  `except requests.RequestException` handler. -/
  | errorLog (page : Nat)
deriving DecidableEq

/-- The CSS class of the listing-block selector
(`soup.find_all('div', class_='box-product listing-item effect-item h-100')`).
BeautifulSoup matches a whitespace-containing `class_` string against the
whole class attribute, modelled here as one entry of the class list. -/
def listingClass : String := "box-product listing-item effect-item h-100"

/-- The body of the `for page in ...` loop of `scrape_car_listings`
(ws.py lines 120-150), run over an explicit list of page numbers:
returns the accumulated non-SKIP records and the event trace. On fetch
success the source extracts every listing block, logs the page count,
and sleeps; on `requests.RequestException` it logs the error and moves
on — note that the `time.sleep(1)` sits inside the `try` block, so no
sleep happens on the failure path. -/
def scrapeGo (fetch : Nat → Except String Node) :
    List Nat → List RawCar × List Event
  | [] => ([], [])
  | page :: rest =>
    match fetch page with
    | .ok soup =>
      let car_divs := findAll "div" (some listingClass) soup
      let cars := car_divs.filterMap extract_car_details
      let r := scrapeGo fetch rest
      (cars ++ r.1,
        .fetchAttempt page :: .pageLog page car_divs.length :: .sleep :: r.2)
    | .error _ =>
      let r := scrapeGo fetch rest
      (r.1, .fetchAttempt page :: .errorLog page :: r.2)

/-- Embedding of `scrape_car_listings(base_url, max_pages)` (ws.py lines
111-152): visit pages `1 .. max_pages` in order. The base URL only
feeds the fetch oracle, so it is dropped from the embedding. -/
def scrape_car_listings (fetch : Nat → Except String Node)
    (max_pages : Nat) : List RawCar × List Event :=
  scrapeGo fetch (List.range' 1 max_pages)

/-- The page numbers for which a fetch was attempted, in trace order. -/
def attemptedPages : List Event → List Nat
  | [] => []
  | .fetchAttempt p :: es => p :: attemptedPages es
  | _ :: es => attemptedPages es

/-- The number of `time.sleep(1)` pacing delays in a trace. -/
def sleepCount : List Event → Nat
  | [] => 0
  | .sleep :: es => sleepCount es + 1
  | _ :: es => sleepCount es

/-- The events one page contributes to the trace: on fetch success an
attempt, the page log, and the pacing sleep; on fetch failure an attempt
and the error log only. -/
def pageEvents (fetch : Nat → Except String Node) (page : Nat) :
    List Event :=
  match fetch page with
  | .ok soup =>
    [.fetchAttempt page,
     .pageLog page (findAll "div" (some listingClass) soup).length,
     .sleep]
  | .error _ => [.fetchAttempt page, .errorLog page]

/-- Whether the fetch oracle succeeds on a page. -/
def fetchOk (fetch : Nat → Except String Node) (page : Nat) : Bool :=
  match fetch page with
  | .ok _ => true
  | .error _ => false

/-! ## TabularSink: `save_to_csv`

The CSV writer is an external collaborator; the observable actions of
`save_to_csv` are recorded as an event trace. `openOk` tells whether
`open(filename, ...)` succeeds (an `IOError` leads to the error log). -/

/-- One observable action of `save_to_csv`. -/
inductive SaveEvent where
  /-- `logging.warning("No data to save")`. -/
  | warnNoData
  /-- `writer.writeheader()` with the fixed nine-column order. -/
  | writeHeader
  /-- `writer.writerow(car)` for one cleaned record. -/
  | writeRow (car : CleanedCar)
  /-- `logging.info(f"Data saved to {filename}")`. -/
  | infoSaved
  /-- `logging.error(f"Error saving CSV: ...")` from the `except IOError`
  handler. -/
  | errorSaving
deriving DecidableEq

/-- The fixed column order written by `save_to_csv` (ws.py lines
166-176). -/
def fieldnames : List String :=
  ["Nom Total", "Marque", "Modele", "Annee", "Age (Years)",
   "Kilometrage (Km)", "Carburant", "Boite", "Prix (DT)"]

/-- Embedding of `save_to_csv(cars, filename)` (ws.py lines 154-192):
on an empty input list (`if not cars`) it logs a warning and returns
without touching the file; otherwise it cleans the data and writes the
header and one row per cleaned record, or logs an error when opening
the file fails. -/
def save_to_csv (current_year : Int) (cars : List (Option RawCar))
    (openOk : Bool) : List SaveEvent :=
  if cars.isEmpty then [.warnNoData]
  else
    let cleaned_cars := clean_and_format_data current_year cars
    if openOk then
      .writeHeader :: cleaned_cars.map .writeRow ++ [.infoSaved]
    else
      [.errorSaving]

/-! ## Concrete listing blocks used by witnesses -/

/-- A fully populated listing block: title `Toyota Corolla`, price
`45 000 DT`, and four option sub-divs whose spans read `2015`,
`80 000 Km`, `Diesel`, `Automatique`. -/
def corollaBlock : Node :=
  .elem "div" [listingClass]
    [.elem "h3" ["lib-car"] [.text "Toyota Corolla"],
     .elem "div" ["price"] [.text "45 000 DT"],
     .elem "div" ["options"]
       [.elem "div" [] [.elem "span" [] [.text "2015"]],
        .elem "div" [] [.elem "span" [] [.text "80 000 Km"]],
        .elem "div" [] [.elem "span" [] [.text "Diesel"]],
        .elem "div" [] [.elem "span" [] [.text "Automatique"]]]]

/-- The raw record extracted from `corollaBlock`. -/
def corollaRaw : RawCar :=
  { nomTotal := "Toyota Corolla"
    marque := "Toyota"
    modele := "Corolla"
    carburant := "Diesel"
    boite := "Automatique"
    prix := "45000"
    kilometrage := "80000"
    annee := "2015" }

/-- A block with a title and price but no `div.options` container. -/
def blockNoOptions : Node :=
  .elem "div" [listingClass]
    [.elem "h3" ["lib-car"] [.text "Peugeot 208"],
     .elem "div" ["price"] [.text "30 000 DT"]]

/-- A block whose `div.options` container has only three sub-divs. -/
def blockThreeOptionDivs : Node :=
  .elem "div" [listingClass]
    [.elem "h3" ["lib-car"] [.text "Peugeot 208"],
     .elem "div" ["price"] [.text "30 000 DT"],
     .elem "div" ["options"]
       [.elem "div" [] [.elem "span" [] [.text "2018"]],
        .elem "div" [] [.elem "span" [] [.text "50 000 Km"]],
        .elem "div" [] [.elem "span" [] [.text "Essence"]]]]

/-- A raw record whose year text `abc` has no digit, used to exercise
the scrub-to-empty path of `clean_and_format_data`. -/
def badAnneeRaw : RawCar :=
  { nomTotal := "Peugeot 208"
    marque := "Peugeot"
    modele := "208"
    carburant := "Essence"
    boite := "Manuelle"
    prix := "30000"
    kilometrage := "50000"
    annee := "abc" }

/-- A fetch oracle for which every page request raises
`requests.RequestException`. -/
def failFetch : Nat → Except String Node :=
  fun _ => .error "connection error"

/-! ## Spec-side string readings -/

/-- The first space-delimited token of a name: the characters before
the first space (the whole string when it has no space). -/
def firstSpaceToken (s : String) : String :=
  ⟨s.data.takeWhile (fun c => c != ' ')⟩

/-- The remainder of a name after its first space-delimited token:
everything after the first space, or `none` when there is no space. -/
def afterFirstSpace (s : String) : Option String :=
  match s.data.dropWhile (fun c => c != ' ') with
  | [] => none
  | _ :: rest => some ⟨rest⟩

end WS

namespace WS

/-- The character data of a scrub result is the digit subsequence of the
input's character data. -/
theorem subNonDigit_data (s : String) :
    (subNonDigit s).data = s.data.filter Char.isDigit := rfl

/-- `clean_and_format_data` drops `None` entries and cleans the rest,
order-preserving. -/
theorem clean_and_format_data_eq (y : Int) (cars : List (Option RawCar)) :
    clean_and_format_data y cars = (cars.filterMap id).map (cleanCar y) := by
  induction cars with
  | nil => rfl
  | cons c rest ih => cases c <;> simp [clean_and_format_data, ih]

/-- C2: extracting the fully populated Toyota Corolla block and
normalizing it yields full name `Toyota Corolla`, brand `Toyota`, model
`Corolla`, year `2015`, age `current year - 2015` rendered by decimal
`toString`, mileage `80000`, fuel `Diesel`, transmission `Automatique`,
and price `45000`, for any current calendar year `y`. -/
theorem pipeline_toyota_corolla (y : Int) :
    clean_and_format_data y [extract_car_details corollaBlock] =
      [{ nomTotal := "Toyota Corolla", marque := "Toyota", modele := "Corolla",
         annee := "2015", age := toString (y - 2015), kilometrage := "80000",
         carburant := "Diesel", boite := "Automatique", prix := "45000" }] := by
  have h : extract_car_details corollaBlock = some corollaRaw := by decide
  rw [h]
  simp [clean_and_format_data, cleanCar, corollaRaw, subNonDigit, pyInt?]

/-- C4 counterexample: the raw year `abc` scrubs to the empty string,
and `clean_and_format_data` stores that empty string in the year column
instead of the unknown marker `N/A`. -/
theorem clean_scrub_empty_stays_empty :
    (cleanCar 2025 badAnneeRaw).annee = "" ∧
    (cleanCar 2025 badAnneeRaw).annee ≠ "N/A" := by decide

/-- C4 amended: normalization strips every non-digit character from the
year, mileage, and price fields and never throws; a field whose text was
the unknown marker `N/A` stays the unknown marker, and otherwise the
output is exactly the scrub result — in particular a scrub-to-empty
field comes out as the empty string, not as the unknown marker. Every
output is the marker or digit-only. -/
theorem clean_numeric_fields (y : Int) (car : RawCar) :
    ((cleanCar y car).annee =
      if car.annee = "N/A" then "N/A" else subNonDigit car.annee) ∧
    ((cleanCar y car).kilometrage =
      if car.kilometrage = "N/A" then "N/A" else subNonDigit car.kilometrage) ∧
    ((cleanCar y car).prix =
      if car.prix = "N/A" then "N/A" else subNonDigit car.prix) ∧
    ((cleanCar y car).annee = "N/A" ∨
      ∀ c ∈ (cleanCar y car).annee.data, c.isDigit) ∧
    ((cleanCar y car).kilometrage = "N/A" ∨
      ∀ c ∈ (cleanCar y car).kilometrage.data, c.isDigit) ∧
    ((cleanCar y car).prix = "N/A" ∨
      ∀ c ∈ (cleanCar y car).prix.data, c.isDigit) := by
  by_cases ha : car.annee = "N/A" <;>
  by_cases hk : car.kilometrage = "N/A" <;>
  by_cases hp : car.prix = "N/A" <;>
    simp [cleanCar, ha, hk, hp, subNonDigit, List.mem_filter]

/-- C6: whenever the raw year text scrubs to the empty string (in
particular when it holds no digit at all, `N/A` included), the computed
age is the unknown marker `N/A`; the embedded normalization is total, so
no exception escapes. -/
theorem age_unknown_on_digitless_year (y : Int) (car : RawCar)
    (h : subNonDigit car.annee = "") :
    (cleanCar y car).age = "N/A" := by
  by_cases ha : car.annee = "N/A" <;> simp [cleanCar, ha, h, pyInt?]

/-- C6 witness: the year text `abc` scrubs to the empty string and its
age comes out as `N/A`. -/
theorem age_unknown_on_digitless_year_witness :
    subNonDigit badAnneeRaw.annee = "" ∧
    (cleanCar 2025 badAnneeRaw).age = "N/A" :=
  ⟨by decide, age_unknown_on_digitless_year 2025 badAnneeRaw (by decide)⟩

/-- C8: on an empty scraped-record list `save_to_csv` emits exactly one
warning log and returns: the sink is never invoked (no header and no row
is written) and no error is logged, whatever the current year and
whether the file could have been opened. -/
theorem save_empty_input_warns (y : Int) (openOk : Bool) :
    save_to_csv y [] openOk = [SaveEvent.warnNoData] ∧
    SaveEvent.writeHeader ∉ save_to_csv y [] openOk ∧
    (∀ c, SaveEvent.writeRow c ∉ save_to_csv y [] openOk) ∧
    SaveEvent.errorSaving ∉ save_to_csv y [] openOk := by
  have h : save_to_csv y [] openOk = [SaveEvent.warnNoData] := rfl
  refine ⟨h, ?_, fun c => ?_, ?_⟩ <;> rw [h] <;> simp

/-- C9: the numeric scrub is idempotent — a digit-only string scrubs to
itself, and re-scrubbing any scrub result changes nothing. -/
theorem scrub_fixes_digit_strings (s : String)
    (h : ∀ c ∈ s.data, c.isDigit = true) :
    subNonDigit s = s ∧
    subNonDigit (subNonDigit s) = subNonDigit s := by
  obtain ⟨d⟩ := s
  constructor
  · exact congrArg String.mk (List.filter_eq_self.mpr h)
  · exact congrArg String.mk
      (List.filter_eq_self.mpr fun c hc => (List.mem_filter.mp hc).2)

/-- C9 witness: the already-normalized price string `45000` is
digit-only and scrubs to itself. -/
theorem scrub_fixes_digit_strings_witness :
    (∀ c ∈ ("45000" : String).data, c.isDigit = true) ∧
    subNonDigit "45000" = "45000" :=
  ⟨by decide, (scrub_fixes_digit_strings "45000" (by decide)).1⟩

/-- C10: normalization copies the full name, brand, model, fuel, and
transmission fields of each accepted raw record into the cleaned record
unchanged; the cleaned record rewrites only the year, mileage, and price
columns and adds the age column, one output record per non-`None` input
record in order. -/
theorem clean_preserves_text_fields (y : Int) (car : RawCar) :
    (cleanCar y car).nomTotal = car.nomTotal ∧
    (cleanCar y car).marque = car.marque ∧
    (cleanCar y car).modele = car.modele ∧
    (cleanCar y car).carburant = car.carburant ∧
    (cleanCar y car).boite = car.boite ∧
    ∀ cars : List (Option RawCar),
      clean_and_format_data y cars = (cars.filterMap id).map (cleanCar y) :=
  ⟨rfl, rfl, rfl, rfl, rfl, fun cars => clean_and_format_data_eq y cars⟩

/-- C1: `extract_car_details` returns the SKIP signal `none` — no
partial record — for any block with no `div.options` container at all,
and likewise for any block whose first `div.options` container holds
fewer than four descendant `div` sub-sections. -/
theorem extract_skips_incomplete_options (d : Node) :
    (findAll "div" (some "options") d = [] →
      extract_car_details d = none) ∧
    (∀ o os, findAll "div" (some "options") d = o :: os →
      (findAll "div" none o).length < 4 →
      extract_car_details d = none) := by
  constructor
  · intro h
    simp [extract_car_details, h]
  · intro o os h hlen
    rcases hl : findAll "div" none o with _ | ⟨d0, _ | ⟨d1, _ | ⟨d2, _ | ⟨d3, tl⟩⟩⟩⟩
    · simp [extract_car_details, h, hl]
    · simp [extract_car_details, h, hl]
    · simp [extract_car_details, h, hl]
    · simp [extract_car_details, h, hl]
    · rw [hl] at hlen
      simp at hlen
      omega

/-- C1 witness: a block with no options container and a block whose
options container has only three sub-divs are both skipped. -/
theorem extract_skips_incomplete_options_witness :
    extract_car_details blockNoOptions = none ∧
    extract_car_details blockThreeOptionDivs = none :=
  ⟨(extract_skips_incomplete_options blockNoOptions).1 rfl,
   (extract_skips_incomplete_options blockThreeOptionDivs).2 _ _ rfl
     (by decide)⟩

/-- Per-page-list form of C3: the walker attempts exactly the given
page numbers, in order, whatever the fetch outcomes. -/
theorem scrapeGo_attempts (fetch : Nat → Except String Node)
    (ps : List Nat) : attemptedPages (scrapeGo fetch ps).2 = ps := by
  induction ps with
  | nil => rfl
  | cons p rest ih =>
    cases h : fetch p <;> simp [scrapeGo, h, attemptedPages, ih]

/-- C3: for every page budget `n`, the walk attempts a fetch for
exactly the pages `1 .. n` in order, however many fetches succeed; and
when every fetch fails, it returns the empty record list. The embedded
walker is total, so no exception escapes it. -/
theorem walk_attempts_all_pages (fetch : Nat → Except String Node)
    (n : Nat) :
    attemptedPages (scrape_car_listings fetch n).2 = List.range' 1 n ∧
    ((∀ p, ∃ msg, fetch p = .error msg) →
      (scrape_car_listings fetch n).1 = []) := by
  constructor
  · exact scrapeGo_attempts fetch (List.range' 1 n)
  · intro hfail
    suffices hs : ∀ ps, (scrapeGo fetch ps).1 = [] from hs _
    intro ps
    induction ps with
    | nil => rfl
    | cons p rest ih =>
      obtain ⟨msg, hm⟩ := hfail p
      simp [scrapeGo, hm, ih]

/-- C3 witness: with a fetch oracle failing on every page and a budget
of three pages, the walk still attempts pages 1, 2, 3 and returns no
records. -/
theorem walk_attempts_all_pages_witness :
    attemptedPages (scrape_car_listings failFetch 3).2 = [1, 2, 3] ∧
    (scrape_car_listings failFetch 3).1 = [] :=
  ⟨(walk_attempts_all_pages failFetch 3).1,
   (walk_attempts_all_pages failFetch 3).2 fun _ =>
     ⟨"connection error", rfl⟩⟩

/-- C5 counterexample: `time.sleep(1)` sits inside the `try` block, so
a page whose fetch raises produces no pacing delay. With the all-failing
fetch oracle and a one-page budget, page 1 is processed (attempted and
error-logged) yet the full trace holds no sleep at all, although the
claim demands a delay after every page's processing, failure included. -/
theorem sleep_skipped_on_failed_fetch :
    (scrape_car_listings failFetch 1).2 =
      [Event.fetchAttempt 1, Event.errorLog 1] ∧
    sleepCount (scrape_car_listings failFetch 1).2 = 0 :=
  ⟨rfl, rfl⟩

/-- C5 amended: the pacing delay runs after each successfully fetched
page's processing, before the next page number is attempted; after a
failed fetch the walker moves on immediately with no delay. The trace
is the in-order concatenation of per-page segments — a success segment
ends with the sleep, a failure segment has none — so the number of
sleeps equals the number of successfully fetched pages. -/
theorem sleep_only_after_successful_pages
    (fetch : Nat → Except String Node) (n : Nat) :
    (scrape_car_listings fetch n).2 =
      ((List.range' 1 n).map (pageEvents fetch)).flatten ∧
    sleepCount (scrape_car_listings fetch n).2 =
      (List.range' 1 n).countP (fetchOk fetch) := by
  constructor
  · suffices hs : ∀ ps : List Nat,
        (scrapeGo fetch ps).2 = (ps.map (pageEvents fetch)).flatten from
      hs _
    intro ps
    induction ps with
    | nil => rfl
    | cons p rest ih =>
      cases h : fetch p <;> simp [scrapeGo, h, pageEvents, ih]
  · suffices hs : ∀ ps : List Nat,
        sleepCount (scrapeGo fetch ps).2 = ps.countP (fetchOk fetch) from
      hs _
    intro ps
    induction ps with
    | nil => rfl
    | cons p rest ih =>
      cases h : fetch p <;>
        simp [scrapeGo, h, fetchOk, sleepCount, List.countP_cons, ih]

/-- Space-splitting agrees with the spec-side token reading: the part
before the first space is the first space-delimited token, and the part
after it is the remainder (absent when the string has no space). -/
theorem pySplitOnceSpace_spec (s : String) :
    (pySplitOnceSpace s).1 = firstSpaceToken s ∧
    (pySplitOnceSpace s).2 = afterFirstSpace s := by
  unfold pySplitOnceSpace firstSpaceToken afterFirstSpace
  rw [List.span_eq_take_drop]
  cases h : s.data.dropWhile (fun c => c != ' ') <;> simp [h]

/-- C7: every record `extract_car_details` produces has its brand equal
to the first space-delimited token of its full display name and its
model equal to the remainder of the name after that token, or the
unknown marker `N/A` when the name has no remainder. -/
theorem extract_brand_model (d : Node) (r : RawCar)
    (h : extract_car_details d = some r) :
    r.marque = firstSpaceToken r.nomTotal ∧
    r.modele = (afterFirstSpace r.nomTotal).getD "N/A" := by
  rcases h1 : findAll "div" (some "options") d with _ | ⟨o, os⟩
  · simp [extract_car_details, h1] at h
  · rcases h2 : findAll "div" none o with _ | ⟨d0, _ | ⟨d1, _ | ⟨d2, _ | ⟨d3, tl⟩⟩⟩⟩ <;>
      simp [extract_car_details, h1, h2] at h
    obtain rfl := h.symm
    refine ⟨(pySplitOnceSpace_spec _).1.symm ▸ rfl, ?_⟩
    rw [show (RawCar.modele _) =
        (match (pySplitOnceSpace (match findFirst "h3" (some "lib-car") d with
          | some n => pyStrip (nodeText n)
          | none => "N/A")).2 with
        | some rest => rest
        | none => "N/A") from rfl]
    rw [(pySplitOnceSpace_spec _).2]
    cases afterFirstSpace _ <;> simp

/-- C7 witness: the Corolla record's brand `Toyota` is the first token
of `Toyota Corolla` and its model `Corolla` is the remainder. -/
theorem extract_brand_model_witness :
    corollaRaw.marque = firstSpaceToken corollaRaw.nomTotal ∧
    corollaRaw.modele = (afterFirstSpace corollaRaw.nomTotal).getD "N/A" :=
  extract_brand_model corollaBlock corollaRaw (by decide)

end WS
